import Mathlib

/-!
# rokka-go: the request execution pipeline of `rokka/client.go`

A shallow embedding of `src/rokka/client.go`.

* Go values of the package are Lean structures with the field names of the source.
* A Go `error` is a value of the closed type `Error`; `nil` is `none`.
* A run-time panic (nil dereference, slice index out of range) is `Outcome.panic`.
* What the Go standard library and the absent `http.go` do (`http.NewRequest`,
  `url.Values.Encode`, `json.Unmarshal`, `&http.Client{}`, `NewRetryingHTTPClient`)
  is not part of the source file: these operations are the fields of `Lib` and the
  `Decoder` argument, and every theorem holds for all of them.
* `Client.Call` is instrumented: its result records the requests handed to the
  transport and how often the response handler ran.
-/

namespace Rokka

/-! ## Data model -/

/-- One byte of a `[]byte` or of a Go `string`. -/
abbrev Byte := Nat

/-- Result of a Go call that either returns or panics. -/
inductive Outcome (α : Type) where
  | ret (a : α)
  | panic
deriving Repr, DecidableEq

/-- The fields of `json.UnmarshalTypeError`; `GoType` stands for the field `Type`. -/
structure UnmarshalTypeError where
  Value : String
  GoType : String
  Offset : Int
  Struct : String
  Field : String
deriving Repr, DecidableEq

/-- `APIError`: the inner struct `Error` with its fields `Code` and `Message`. -/
structure APIError where
  Code : Int
  Message : String
deriving Repr, DecidableEq

/-- `StatusCodeError`; a nil `*APIError` is `none`. -/
structure StatusCodeError where
  Code : Int
  APIError : Option APIError
  Body : List Byte
deriving Repr, DecidableEq

/-- `AnnotatedUnmarshalTypeError`: the embedded `*json.UnmarshalTypeError` and `Content`
(a Go string, kept as its bytes). -/
structure AnnotatedUnmarshalTypeError where
  UnmarshalTypeError : UnmarshalTypeError
  Content : List Byte
deriving Repr, DecidableEq

/-- The dynamic types an `error` value can have in this package: `errorAPIKeyMissing`,
a `StatusCodeError` value, a `*AnnotatedUnmarshalTypeError`, a `*json.UnmarshalTypeError`
and any value of another type (transport, I/O, JSON syntax, URL errors), which the
package only passes on. -/
inductive Error where
  | errorAPIKeyMissing
  | statusCode (e : StatusCodeError)
  | annotatedUnmarshalType (e : AnnotatedUnmarshalTypeError)
  | unmarshalType (e : UnmarshalTypeError)
  | foreign (msg : String)
deriving Repr, DecidableEq

/-- `http.Header`, a `map[string][]string`: a key that is absent and a key bound to an
empty slice both read as `[]`. Keys are the canonical MIME header keys; the four keys
`client.go` uses (`Api-Version`, `Accept`, `Api-Key`, `Content-Type`) are literals
already in canonical form, so `CanonicalMIMEHeaderKey` leaves them as they are. -/
abbrev Header := String → List String

/-- `Header.Get`: the first value bound to the key, `""` when there is none. -/
def Header.Get (h : Header) (key : String) : String :=
  match h key with
  | [] => ""
  | v :: _ => v

/-- `Header.Add`: appends the value to the values bound to the key. -/
def Header.Add (h : Header) (key value : String) : Header :=
  fun k => if k = key then h k ++ [value] else h k

/-- `url.Values`, a `map[string][]string`, as its list of entries. -/
abbrev Values := List (String × List String)

/-- The part of `http.Request` the pipeline touches: `URL` is the URL text given to
`http.NewRequest`, `RawQuery` is `req.URL.RawQuery`. -/
structure Request where
  Method : String
  URL : String
  RawQuery : String
  Header : Header
  Body : Option (List Byte)

/-- The part of `http.Response` the pipeline reads. `Body` is what
`ioutil.ReadAll(resp.Body)` returns: the bytes, or the read error. -/
structure Response where
  StatusCode : Int
  Body : Except Error (List Byte)

/-- `HTTPRequester`: the interface with the single method `Do`, which returns a
response or an error. -/
structure HTTPRequester where
  Do : Request → Except Error Response

/-- `Config`; a nil interface value is `none`. -/
structure Config where
  APIAddress : String
  APIVersion : String
  APIKey : String
  ImageHost : String
  Verbose : Bool
  HTTPClient : Option HTTPRequester
  RetryingHTTPClient : Option HTTPRequester

/-- `Client`. -/
structure Client where
  config : Config

/-- `Client.GetConfig`. -/
def GetConfig (c : Client) : Config := c.config

/-- Operations `client.go` calls but does not define; they are parameters of the
embedding. `defaultHTTPClient` is `&http.Client{}`; `NewRetryingHTTPClient` is the
constructor of the retry transport (from a base transport, a maximum number of attempts
and a time budget), which returns a transport; `httpNewRequest` is `http.NewRequest`,
which returns a request or an error; `valuesEncode` is `url.Values.Encode`;
`unmarshalAPIError body` is `json.Unmarshal(body, &rErr)` on a zero `APIError`,
returning the decoded value or the error. -/
structure Lib where
  defaultHTTPClient : HTTPRequester
  NewRetryingHTTPClient : Option HTTPRequester → Int → Int → HTTPRequester
  httpNewRequest : String → String → Option (List Byte) → Except Error Request
  valuesEncode : Values → String
  unmarshalAPIError : List Byte → Except Error APIError

/-- `json.Unmarshal(body, &v)` for a decode target whose state has type `σ`: the state
of the target afterwards and the error, if any. For a nil target `σ` is `Unit`. -/
abbrev Decoder (σ : Type) := List Byte → σ → σ × Option Error

/-- `responseHandler`: the handler may change the decode target and returns an error or
nil; it may panic. -/
abbrev responseHandler (σ : Type) := Response → σ → Outcome (σ × Option Error)

/-- What one `Client.Call` did: the requests handed to the transport, the number of
times the response handler was invoked, and how the call ended: the decode target
afterwards with the returned error, or a panic. -/
structure CallResult (σ : Type) where
  sent : List Request
  handlerCalls : Nat
  outcome : Outcome (σ × Option Error)

/-! ## Construction -/

/-- `DefaultConfig`. -/
def DefaultConfig (lib : Lib) : Config :=
  { APIAddress := "https://api.rokka.io"
    APIVersion := "1"
    APIKey := ""
    ImageHost := "https://\x7b\x7borganization\x7d\x7d.rokka.io"
    Verbose := false
    HTTPClient := some lib.defaultHTTPClient
    RetryingHTTPClient := none }

/-- `NewClient`: fills the unset fields of `*config` in place and returns a client
holding a copy. The first component is the caller's `Config` after the call. -/
def NewClient (lib : Lib) (config : Config) : Config × Client :=
  let defConfig := DefaultConfig lib
  let config := if config.APIAddress.length = 0
    then { config with APIAddress := defConfig.APIAddress } else config
  let config := if config.APIVersion.length = 0
    then { config with APIVersion := defConfig.APIVersion } else config
  let config := if config.APIKey.length = 0
    then { config with APIKey := defConfig.APIKey } else config
  let config := if config.ImageHost.length = 0
    then { config with ImageHost := defConfig.ImageHost } else config
  let config := if config.HTTPClient.isNone
    then { config with HTTPClient := defConfig.HTTPClient } else config
  let config := if config.RetryingHTTPClient.isNone
    then { config with
           RetryingHTTPClient := some (lib.NewRetryingHTTPClient config.HTTPClient 10 6000) }
    else config
  (config, { config := config })

/-- The heap of allocated `Client` objects; a `*Client` is an index into it. -/
abbrev Heap := List Client

/-- `Client.AutoRetry`: copies `*c`, points the copy's `HTTPClient` at
`c.config.RetryingHTTPClient`, and returns the address of the copy, a fresh object.
Dereferencing a pointer to no object panics. -/
def AutoRetry (h : Heap) (c : Nat) : Outcome (Heap × Nat) :=
  match h[c]? with
  | none => .panic
  | some cl =>
    let nc : Client := cl
    let nc : Client :=
      { nc with config := { nc.config with HTTPClient := cl.config.RetryingHTTPClient } }
    .ret (h ++ [nc], h.length)

/-! ## Error classification and decoding -/

/-- `handleStatusCodeError`. -/
def handleStatusCodeError (lib : Lib) (resp : Response) : Error :=
  match resp.Body with
  | .error err => err
  | .ok body =>
    let sErr : StatusCodeError := { Code := resp.StatusCode, APIError := none, Body := body }
    if body.length = 0 then .statusCode sErr
    else
      match lib.unmarshalAPIError body with
      | .error _ => .statusCode sErr
      | .ok rErr => .statusCode { sErr with APIError := some rErr }

/-- The slice expression `body[lo:hi]`: panics unless `0 ≤ lo ≤ hi ≤ len(body)`. -/
def slice (body : List Byte) (lo hi : Int) : Outcome (List Byte) :=
  if 0 ≤ lo ∧ lo ≤ hi ∧ hi ≤ (body.length : Int) then
    .ret ((body.drop lo.toNat).take (hi.toNat - lo.toNat))
  else .panic

/-- The bytes of the string `"\n<-->\n"`. -/
def separator : List Byte := [10, 60, 45, 45, 62, 10]

/-- `handleUnmarshalError`. `fmt.Sprintf("%s\n<-->\n%s", a, b)` is `a`, the separator,
`b`. Offsets are `int64`; they stay far from its limits, so plain integers are used. -/
def handleUnmarshalError (err : Error) (body : List Byte) : Outcome Error :=
  match err with
  | .unmarshalType err =>
    let start := err.Offset - 100
    let end_ := err.Offset + 100
    let lBody : Int := body.length
    let start := if start < 0 then 0 else start
    let end_ := if end_ > lBody then lBody else end_
    match slice body start err.Offset, slice body err.Offset end_ with
    | .ret before, .ret after =>
      .ret (.annotatedUnmarshalType
        { UnmarshalTypeError := err, Content := before ++ separator ++ after })
    | _, _ => .panic
  | err => .ret err

/-- `jsonResponseHandler`, for the decoder `dec` standing for `json.Unmarshal(body, &v)`. -/
def jsonResponseHandler {σ : Type} (dec : Decoder σ) : responseHandler σ :=
  fun resp v =>
    match resp.Body with
    | .error err => .ret (v, some err)
    | .ok body =>
      if body.length = 0 then .ret (v, none)
      else
        match dec body v with
        | (v1, some err) =>
          match handleUnmarshalError err body with
          | .ret e => .ret (v1, some e)
          | .panic => .panic
        | (v1, none) => .ret (v1, none)

/-! ## The call pipeline -/

/-- The headers `Client.Call` puts on the request before dispatch. -/
def callHeaders (c : Client) (h : Header) : Header :=
  let h := h.Add "Api-Version" c.config.APIVersion
  let h := h.Add "Accept" "application/json"
  let h := if c.config.APIKey.length ≠ 0 ∧ h.Get "Api-Key" = ""
    then h.Add "Api-Key" c.config.APIKey else h
  let h := if (h.Get "Content-Type").length = 0
    then h.Add "Content-Type" "application/json" else h
  h

/-- `Client.Call`. Calling `Do` on a nil `HTTPClient` panics before any request is
handed over. -/
def Call {σ : Type} (lib : Lib) (c : Client) (req : Request) (v : σ)
    (rh : Option (responseHandler σ)) : CallResult σ :=
  let req : Request := { req with Header := callHeaders c req.Header }
  match c.config.HTTPClient with
  | none => { sent := [], handlerCalls := 0, outcome := .panic }
  | some t =>
    match t.Do req with
    | .error err => { sent := [req], handlerCalls := 0, outcome := .ret (v, some err) }
    | .ok resp =>
      if resp.StatusCode ≥ 400 then
        { sent := [req], handlerCalls := 0,
          outcome := .ret (v, some (handleStatusCodeError lib resp)) }
      else
        match rh with
        | some rh => { sent := [req], handlerCalls := 1, outcome := rh resp v }
        | none => { sent := [req], handlerCalls := 0, outcome := .ret (v, none) }

/-- `Client.CallJSONResponse`. -/
def CallJSONResponse {σ : Type} (lib : Lib) (dec : Decoder σ) (c : Client) (req : Request)
    (v : σ) : CallResult σ :=
  Call lib c req v (some (jsonResponseHandler dec))

/-- `Client.NewRequest`: `req` is nil when `http.NewRequest` fails, and writing
`req.URL.RawQuery` through it panics. -/
def NewRequest (lib : Lib) (c : Client) (method path : String) (body : Option (List Byte))
    (query : Values) : Outcome (Except Error Request) :=
  match lib.httpNewRequest method (c.config.APIAddress ++ path) body with
  | .ok req =>
    if query.length > 0 then .ret (.ok { req with RawQuery := lib.valuesEncode query })
    else .ret (.ok req)
  | .error err =>
    if query.length > 0 then .panic
    else .ret (.error err)

/-- What `Client.ValidAPIKey` did: the requests handed to the transport, and the
returned pair `(bool, error)` or a panic. -/
structure ValidResult where
  sent : List Request
  outcome : Outcome (Bool × Option Error)

/-- `Client.ValidAPIKey`; `dec` decodes into the nil target. -/
def ValidAPIKey (lib : Lib) (dec : Decoder Unit) (c : Client) : ValidResult :=
  if c.config.APIKey.length = 0 then
    { sent := [], outcome := .ret (false, some .errorAPIKeyMissing) }
  else
    match NewRequest lib c "GET" "/" none [] with
    | .panic => { sent := [], outcome := .panic }
    | .ret (.error err) => { sent := [], outcome := .ret (false, some err) }
    | .ret (.ok req) =>
      let r := CallJSONResponse lib dec c req ()
      match r.outcome with
      | .panic => { sent := r.sent, outcome := .panic }
      | .ret (_, some (.statusCode err)) =>
        if err.Code = 403 then { sent := r.sent, outcome := .ret (false, none) }
        else { sent := r.sent, outcome := .ret (false, some (.statusCode err)) }
      | .ret (_, some err) => { sent := r.sent, outcome := .ret (false, some err) }
      | .ret (_, none) => { sent := r.sent, outcome := .ret (true, none) }

/-! ## Concrete instances, for evaluating the definitions -/

/-- A transport that fails with a connection error. -/
def offline : HTTPRequester := { Do := fun _ => .error (.foreign "connection refused") }

/-- A transport that answers every request with the given response. -/
def answering (resp : Response) : HTTPRequester := { Do := fun _ => .ok resp }

/-- One instance of the library operations: requests for a URL starting with a colon
are rejected, query parameters are not escaped, and the only error body that decodes
is the two bytes of an empty JSON object. -/
def sampleLib : Lib :=
  { defaultHTTPClient := offline
    NewRetryingHTTPClient := fun base _ _ => base.getD offline
    httpNewRequest := fun method url body =>
      if url.front = ':' then .error (.foreign "missing protocol scheme")
      else .ok { Method := method, URL := url, RawQuery := "", Header := fun _ => [],
                 Body := body }
    valuesEncode := fun q =>
      "&".intercalate (q.map fun kv => kv.1 ++ "=" ++ ",".intercalate kv.2)
    unmarshalAPIError := fun body =>
      if body = [123, 125] then .ok { Code := 0, Message := "" }
      else .error (.foreign "invalid character") }

/-- A decoder for the nil target that accepts every body. -/
def sampleDecoder : Decoder Unit := fun _ v => (v, none)

/-- A `Config` with no field set. -/
def unsetConfig : Config :=
  { APIAddress := "", APIVersion := "", APIKey := "", ImageHost := "", Verbose := false,
    HTTPClient := none, RetryingHTTPClient := none }

/-- A client with the given key, active transport and retry transport. -/
def sampleClient (key : String) (t retry : HTTPRequester) : Client :=
  { config :=
    { APIAddress := "https://api.rokka.io", APIVersion := "1", APIKey := key,
      ImageHost := "https://img.rokka.io", Verbose := false,
      HTTPClient := some t, RetryingHTTPClient := some retry } }

/-- A GET request with the given headers. -/
def sampleRequest (h : Header) : Request :=
  { Method := "GET", URL := "https://api.rokka.io/", RawQuery := "", Header := h,
    Body := none }

/-- The header map with one key bound to the given values. -/
def headerWith (key : String) (vs : List String) : Header :=
  fun k => if k = key then vs else []

/-! ## Helper lemmas -/

theorem length_eq_zero_iff (s : String) : s.length = 0 ↔ s = "" := by
  constructor
  · intro h
    apply String.ext
    have hd : s.data.length = 0 := h
    simpa using List.length_eq_zero.mp hd
  · intro h
    subst h
    rfl

theorem Header.Get_Add_other (h : Header) (key value k : String) (hk : k ≠ key) :
    (h.Add key value).Get k = h.Get k := by
  simp [Header.Get, Header.Add, hk]

theorem callHeaders_eq (c : Client) (h : Header) :
    callHeaders c h
      = (fun h1 : Header =>
          if h.Get "Content-Type" = "" then h1.Add "Content-Type" "application/json" else h1)
        ((fun h0 : Header =>
          if c.config.APIKey ≠ "" ∧ h.Get "Api-Key" = "" then h0.Add "Api-Key" c.config.APIKey
          else h0)
          ((h.Add "Api-Version" c.config.APIVersion).Add "Accept" "application/json")) := by
  have k1 : ("Api-Key" : String) ≠ "Accept" := by decide
  have k2 : ("Api-Key" : String) ≠ "Api-Version" := by decide
  have k3 : ("Content-Type" : String) ≠ "Accept" := by decide
  have k4 : ("Content-Type" : String) ≠ "Api-Version" := by decide
  have k5 : ("Content-Type" : String) ≠ "Api-Key" := by decide
  have hk := length_eq_zero_iff c.config.APIKey
  unfold callHeaders
  by_cases hc : c.config.APIKey = "" <;> by_cases hg : h.Get "Api-Key" = ""
    <;> simp [Header.Get_Add_other, length_eq_zero_iff, k1, k2, k3, k4, k5, hc, hg]

theorem callHeaders_Api_Version (c : Client) (h : Header) :
    callHeaders c h "Api-Version" = h "Api-Version" ++ [c.config.APIVersion] := by
  rw [callHeaders_eq]
  by_cases hc : c.config.APIKey ≠ "" ∧ h.Get "Api-Key" = ""
    <;> by_cases hg : h.Get "Content-Type" = ""
    <;> simp [Header.Add, hc, hg]

theorem callHeaders_Accept (c : Client) (h : Header) :
    callHeaders c h "Accept" = h "Accept" ++ ["application/json"] := by
  rw [callHeaders_eq]
  by_cases hc : c.config.APIKey ≠ "" ∧ h.Get "Api-Key" = ""
    <;> by_cases hg : h.Get "Content-Type" = ""
    <;> simp [Header.Add, hc, hg]

theorem callHeaders_Api_Key (c : Client) (h : Header) :
    callHeaders c h "Api-Key"
      = if c.config.APIKey ≠ "" ∧ h.Get "Api-Key" = "" then h "Api-Key" ++ [c.config.APIKey]
        else h "Api-Key" := by
  rw [callHeaders_eq]
  by_cases hc : c.config.APIKey ≠ "" ∧ h.Get "Api-Key" = ""
    <;> by_cases hg : h.Get "Content-Type" = ""
    <;> simp [Header.Add, hc, hg]

theorem callHeaders_Content_Type (c : Client) (h : Header) :
    callHeaders c h "Content-Type"
      = if h.Get "Content-Type" = "" then h "Content-Type" ++ ["application/json"]
        else h "Content-Type" := by
  rw [callHeaders_eq]
  by_cases hc : c.config.APIKey ≠ "" ∧ h.Get "Api-Key" = ""
    <;> by_cases hg : h.Get "Content-Type" = ""
    <;> simp [Header.Add, hc, hg]

theorem callHeaders_other (c : Client) (h : Header) (k : String) (h1 : k ≠ "Api-Version")
    (h2 : k ≠ "Accept") (h3 : k ≠ "Api-Key") (h4 : k ≠ "Content-Type") :
    callHeaders c h k = h k := by
  rw [callHeaders_eq]
  by_cases hc : c.config.APIKey ≠ "" ∧ h.Get "Api-Key" = ""
    <;> by_cases hg : h.Get "Content-Type" = ""
    <;> simp [Header.Add, hc, hg, h1, h2, h3, h4]

theorem separator_eq : separator = "\n<-->\n".toList.map Char.toNat := by
  decide

theorem slice_before (body : List Byte) (n : Nat) (hn : n ≤ body.length) :
    slice body (if (n : Int) - 100 < 0 then 0 else (n : Int) - 100) n
      = .ret ((body.take n).drop (n - 100)) := by
  unfold slice
  by_cases h : (n : Int) - 100 < 0
  · have h2 : n - 100 = 0 := by omega
    simp only [h, if_true, h2]
    rw [if_pos ⟨le_refl _, by omega, by omega⟩]
    simp
  · simp only [h, if_false]
    rw [if_pos ⟨by omega, by omega, by omega⟩]
    have e1 : ((n : Int) - 100).toNat = n - 100 := by omega
    rw [e1, List.drop_take]
    simp

theorem slice_after (body : List Byte) (n : Nat) (hn : n ≤ body.length) :
    slice body n (if (n : Int) + 100 > (body.length : Int) then (body.length : Int) else (n : Int) + 100)
      = .ret ((body.drop n).take 100) := by
  unfold slice
  by_cases h : (n : Int) + 100 > (body.length : Int)
  · simp only [h, if_true]
    rw [if_pos ⟨by omega, by omega, le_refl _⟩]
    have hl : (body.drop n).length ≤ 100 := by rw [List.length_drop]; omega
    simp only [Int.toNat_ofNat]
    rw [List.take_of_length_le hl, List.take_of_length_le (by rw [List.length_drop])]
  · simp only [h, if_false]
    rw [if_pos ⟨by omega, by omega, by omega⟩]
    have e1 : ((n : Int) + 100).toNat - (n : Int).toNat = 100 := by omega
    rw [e1]
    simp

/-! ## Construction: `NewClient` and `AutoRetry` -/

/-- C10, as stated, fails: for a `Config` with no field set, the resulting client's
`APIKey` is not a non-empty string; the default key is the empty string. -/
theorem NewClient_unset_APIKey_empty :
    unsetConfig.APIKey = "" ∧ ¬ ((NewClient sampleLib unsetConfig).2.config.APIKey ≠ "") := by
  decide

/-- C10, amended: in the configuration of the client `NewClient` returns, `APIAddress`,
`APIVersion` and `ImageHost` keep a given non-empty value and otherwise hold the
non-empty defaults; `APIKey` and `Verbose` keep the value given (an unset key stays
empty); `HTTPClient` is the one given or else the default one, never nil; and
`RetryingHTTPClient` is the one given or else the retry transport built from the
resulting `HTTPClient` with 10 attempts and a budget of 6000, never nil. The caller's
`Config` ends up with the same values. -/
theorem NewClient_defaults (lib : Lib) (config : Config) :
    (NewClient lib config).2.config.APIAddress
        = (if config.APIAddress = "" then "https://api.rokka.io" else config.APIAddress)
      ∧ (NewClient lib config).2.config.APIAddress ≠ ""
      ∧ (NewClient lib config).2.config.APIVersion
        = (if config.APIVersion = "" then "1" else config.APIVersion)
      ∧ (NewClient lib config).2.config.APIVersion ≠ ""
      ∧ (NewClient lib config).2.config.APIKey = config.APIKey
      ∧ (NewClient lib config).2.config.ImageHost
        = (if config.ImageHost = "" then "https://\x7b\x7borganization\x7d\x7d.rokka.io"
           else config.ImageHost)
      ∧ (NewClient lib config).2.config.ImageHost ≠ ""
      ∧ (NewClient lib config).2.config.Verbose = config.Verbose
      ∧ (NewClient lib config).2.config.HTTPClient
        = some (config.HTTPClient.getD lib.defaultHTTPClient)
      ∧ (NewClient lib config).2.config.RetryingHTTPClient
        = some (config.RetryingHTTPClient.getD
            (lib.NewRetryingHTTPClient (some (config.HTTPClient.getD lib.defaultHTTPClient))
              10 6000))
      ∧ (NewClient lib config).1 = (NewClient lib config).2.config := by
  obtain ⟨addr, ver, key, host, vb, hc, rc⟩ := config
  have ha := length_eq_zero_iff addr
  have hv := length_eq_zero_iff ver
  have hk := length_eq_zero_iff key
  have hh := length_eq_zero_iff host
  by_cases h1 : addr = "" <;> by_cases h2 : ver = "" <;> by_cases h3 : key = ""
    <;> by_cases h4 : host = "" <;> cases hc <;> cases rc
    <;> simp [NewClient, DefaultConfig, ha, hv, hk, hh, h1, h2, h3, h4]

/-- C5: for a pointer `c` to a client `cl`, `AutoRetry` returns a pointer to a new
object, different from `c`; the new client's `HTTPClient` is `cl`'s
`RetryingHTTPClient` and all its other configuration fields equal `cl`'s; afterwards
`c` still points to `cl`, and every object that existed before is unchanged. -/
theorem AutoRetry_copy (h : Heap) (c : Nat) (cl : Client) (hc : h[c]? = some cl) :
    ∃ h1 n nc, AutoRetry h c = .ret (h1, n)
      ∧ n ≠ c
      ∧ h1[n]? = some nc
      ∧ nc.config.HTTPClient = cl.config.RetryingHTTPClient
      ∧ nc.config.APIAddress = cl.config.APIAddress
      ∧ nc.config.APIVersion = cl.config.APIVersion
      ∧ nc.config.APIKey = cl.config.APIKey
      ∧ nc.config.ImageHost = cl.config.ImageHost
      ∧ nc.config.Verbose = cl.config.Verbose
      ∧ nc.config.RetryingHTTPClient = cl.config.RetryingHTTPClient
      ∧ h1[c]? = some cl
      ∧ ∀ p, p < h.length → h1[p]? = h[p]? := by
  have hlt : c < h.length := by
    by_contra hge
    rw [List.getElem?_eq_none (Nat.le_of_not_lt hge)] at hc
    cases hc
  refine ⟨h ++ [{ cl with config :=
      { cl.config with HTTPClient := cl.config.RetryingHTTPClient } }], h.length,
    { cl with config := { cl.config with HTTPClient := cl.config.RetryingHTTPClient } },
    ?_, ?_, ?_, rfl, rfl, rfl, rfl, rfl, rfl, rfl, ?_, ?_⟩
  · simp only [AutoRetry, hc]
  · exact Nat.ne_of_gt hlt
  · simp
  · rw [List.getElem?_append_left hlt]
    exact hc
  · intro p hp
    exact List.getElem?_append_left hp

/-- C5 at a concrete heap: one client, whose active transport answers 200 and whose
retry transport is `offline`. -/
theorem AutoRetry_copy_witness :
    ∃ h1 n nc, AutoRetry [sampleClient "k" (answering ⟨200, .ok []⟩) offline] 0 = .ret (h1, n)
      ∧ n ≠ 0
      ∧ h1[n]? = some nc
      ∧ nc.config.HTTPClient = some offline
      ∧ nc.config.APIKey = "k"
      ∧ h1[0]? = some (sampleClient "k" (answering ⟨200, .ok []⟩) offline) := by
  obtain ⟨h1, n, nc, hr, hn, hnc, h4, _, _, h7, _, _, _, h11, _⟩ :=
    AutoRetry_copy [sampleClient "k" (answering ⟨200, .ok []⟩) offline] 0
      (sampleClient "k" (answering ⟨200, .ok []⟩) offline) rfl
  exact ⟨h1, n, nc, hr, hn, hnc, h4, h7, h11⟩

/-! ## `Client.Call`: dispatch and status classification -/

theorem handleStatusCodeError_of_read (lib : Lib) (resp : Response) (body : List Byte)
    (hb : resp.Body = .ok body) :
    ∃ a, handleStatusCodeError lib resp
      = .statusCode { Code := resp.StatusCode, APIError := a, Body := body } := by
  unfold handleStatusCodeError
  simp only [hb]
  by_cases hl : body.length = 0
  · exact ⟨none, by simp only [hl, if_true]⟩
  · cases hu : lib.unmarshalAPIError body with
    | error e1 => exact ⟨none, by simp only [hl, if_false]⟩
    | ok a => exact ⟨some a, by simp only [hl, if_false]⟩

theorem handleStatusCodeError_of_read_error (lib : Lib) (resp : Response) (err : Error)
    (hb : resp.Body = .error err) : handleStatusCodeError lib resp = err := by
  unfold handleStatusCodeError
  simp only [hb]

theorem Call_sent {σ : Type} (lib : Lib) (c : Client) (req : Request) (v : σ)
    (rh : Option (responseHandler σ)) (t : HTTPRequester)
    (ht : c.config.HTTPClient = some t) :
    (Call lib c req v rh).sent = [{ req with Header := callHeaders c req.Header }] := by
  unfold Call
  simp only [ht]
  cases t.Do { req with Header := callHeaders c req.Header } with
  | error err => rfl
  | ok resp =>
    by_cases hs : resp.StatusCode ≥ 400
    · simp [hs]
    · cases rh <;> simp [hs]

theorem Call_of_transport_error {σ : Type} (lib : Lib) (c : Client) (req : Request) (v : σ)
    (rh : Option (responseHandler σ)) (t : HTTPRequester) (err : Error)
    (ht : c.config.HTTPClient = some t)
    (hdo : t.Do { req with Header := callHeaders c req.Header } = .error err) :
    Call lib c req v rh
      = { sent := [{ req with Header := callHeaders c req.Header }], handlerCalls := 0,
          outcome := .ret (v, some err) } := by
  unfold Call
  simp only [ht, hdo]

theorem Call_of_status_ge_400 {σ : Type} (lib : Lib) (c : Client) (req : Request) (v : σ)
    (rh : Option (responseHandler σ)) (t : HTTPRequester) (resp : Response)
    (ht : c.config.HTTPClient = some t)
    (hdo : t.Do { req with Header := callHeaders c req.Header } = .ok resp)
    (hs : resp.StatusCode ≥ 400) :
    Call lib c req v rh
      = { sent := [{ req with Header := callHeaders c req.Header }], handlerCalls := 0,
          outcome := .ret (v, some (handleStatusCodeError lib resp)) } := by
  unfold Call
  simp only [ht, hdo]
  simp [hs]

theorem Call_of_status_lt_400 {σ : Type} (lib : Lib) (c : Client) (req : Request) (v : σ)
    (rh : responseHandler σ) (t : HTTPRequester) (resp : Response)
    (ht : c.config.HTTPClient = some t)
    (hdo : t.Do { req with Header := callHeaders c req.Header } = .ok resp)
    (hs : resp.StatusCode < 400) :
    Call lib c req v (some rh)
      = { sent := [{ req with Header := callHeaders c req.Header }], handlerCalls := 1,
          outcome := rh resp v } := by
  have hn : ¬ resp.StatusCode ≥ 400 := by omega
  unfold Call
  simp only [ht, hdo]
  simp [hn]

/-- C1, where the code departs from it: when the active transport answers the
dispatched request with a status of 400 or more and reading the body fails, `Call`
returns the read error itself, whatever its type, instead of a `StatusCodeError`
carrying the response's status code. The response handler is not invoked. -/
theorem Call_status_error_unread_body {σ : Type} (lib : Lib) (c : Client) (req : Request)
    (v : σ) (rh : Option (responseHandler σ)) (t : HTTPRequester) (resp : Response)
    (err : Error)
    (ht : c.config.HTTPClient = some t)
    (hdo : t.Do { req with Header := callHeaders c req.Header } = .ok resp)
    (hs : resp.StatusCode ≥ 400)
    (hb : resp.Body = .error err) :
    (Call lib c req v rh).outcome = .ret (v, some err)
      ∧ (Call lib c req v rh).handlerCalls = 0 := by
  rw [Call_of_status_ge_400 lib c req v rh t resp ht hdo hs,
    handleStatusCodeError_of_read_error lib resp err hb]
  exact ⟨rfl, rfl⟩

/-- C1 at the failing input: the transport answers with status 500 and reading the body
fails with an unexpected end of file; `Call` returns that read error, and so no
`StatusCodeError` with code 500. -/
theorem Call_status_error_unread_body_witness :
    (Call sampleLib
        (sampleClient "secret" (answering ⟨500, .error (.foreign "unexpected EOF")⟩) offline)
        (sampleRequest (fun _ => [])) () none).outcome
        = .ret ((), some (.foreign "unexpected EOF"))
      ∧ ¬ ∃ e : StatusCodeError,
        (Call sampleLib
          (sampleClient "secret" (answering ⟨500, .error (.foreign "unexpected EOF")⟩) offline)
          (sampleRequest (fun _ => [])) () none).outcome = .ret ((), some (.statusCode e))
          ∧ e.Code = 500 := by
  have h := (Call_status_error_unread_body sampleLib
    (sampleClient "secret" (answering ⟨500, .error (.foreign "unexpected EOF")⟩) offline)
    (sampleRequest (fun _ => [])) () none
    (answering ⟨500, .error (.foreign "unexpected EOF")⟩)
    ⟨500, .error (.foreign "unexpected EOF")⟩ (.foreign "unexpected EOF")
    rfl rfl (by decide) rfl).1
  refine ⟨h, ?_⟩
  rintro ⟨e, he, _⟩
  rw [h] at he
  cases he

/-- What `Call` does with a status of 400 or more, by the outcome of reading the
body: when the active transport answers the dispatched request with such a status,
`Call` returns without invoking the response handler and leaves the
decode target as it was; if the body is read, whatever it holds, the returned error is
a `StatusCodeError` whose `Code` is the response's status code; if reading the body
fails, the returned error is that read error. -/
theorem Call_status_error {σ : Type} (lib : Lib) (c : Client) (req : Request) (v : σ)
    (rh : Option (responseHandler σ)) (t : HTTPRequester) (resp : Response)
    (ht : c.config.HTTPClient = some t)
    (hdo : t.Do { req with Header := callHeaders c req.Header } = .ok resp)
    (hs : resp.StatusCode ≥ 400) :
    (Call lib c req v rh).handlerCalls = 0
      ∧ (∀ body, resp.Body = .ok body →
          ∃ e : StatusCodeError,
            (Call lib c req v rh).outcome = .ret (v, some (.statusCode e))
              ∧ e.Code = resp.StatusCode)
      ∧ (∀ err, resp.Body = .error err →
          (Call lib c req v rh).outcome = .ret (v, some err)) := by
  rw [Call_of_status_ge_400 lib c req v rh t resp ht hdo hs]
  refine ⟨rfl, ?_, ?_⟩
  · intro body hb
    obtain ⟨a, ha⟩ := handleStatusCodeError_of_read lib resp body hb
    exact ⟨_, by rw [ha], rfl⟩
  · intro err hb
    rw [handleStatusCodeError_of_read_error lib resp err hb]

/-- `Call` at a concrete input: status 404 with a body that is read and is not JSON. -/
theorem Call_status_error_witness :
    (Call sampleLib (sampleClient "secret" (answering ⟨404, .ok [110, 111]⟩) offline)
        (sampleRequest (fun _ => [])) () (some (jsonResponseHandler sampleDecoder))).handlerCalls
        = 0
      ∧ ∃ e : StatusCodeError,
        (Call sampleLib (sampleClient "secret" (answering ⟨404, .ok [110, 111]⟩) offline)
          (sampleRequest (fun _ => [])) () (some (jsonResponseHandler sampleDecoder))).outcome
          = .ret ((), some (.statusCode e)) ∧ e.Code = 404 :=
  have h := Call_status_error sampleLib
    (sampleClient "secret" (answering ⟨404, .ok [110, 111]⟩) offline)
    (sampleRequest (fun _ => [])) () (some (jsonResponseHandler sampleDecoder))
    (answering ⟨404, .ok [110, 111]⟩) ⟨404, .ok [110, 111]⟩ rfl rfl (by decide)
  ⟨h.1, h.2.1 [110, 111] rfl⟩

/-! ## `Client.Call`: the headers of the dispatched request -/

/-- C2, as stated, fails: the caller pre-set the `Api-Key` header to the empty string;
the request handed to the transport carries the caller's value followed by the
configured key, not the caller's values alone. -/
theorem Call_Api_Key_empty_preset :
    (sampleRequest (headerWith "Api-Key" [""])).Header "Api-Key" = [""]
      ∧ ¬ ((Call sampleLib (sampleClient "secret" offline offline)
              (sampleRequest (headerWith "Api-Key" [""])) () none).sent.map
            (fun r => r.Header "Api-Key") = [[""]]) := by
  decide

/-- C2, amended: `Call` hands exactly one request to the active transport, and on it:
if the caller's request has no `Api-Key` value and the configured key is non-empty, the
`Api-Key` header is the configured key; if the caller pre-set an `Api-Key` header whose
first value is non-empty, its values are exactly the caller's; if the first value the
caller set is the empty string (or there is none) and the configured key is non-empty,
the configured key is appended after the caller's values; if the configured key is
empty, the `Api-Key` values are exactly the caller's. -/
theorem Call_Api_Key {σ : Type} (lib : Lib) (c : Client) (req : Request) (v : σ)
    (rh : Option (responseHandler σ)) (t : HTTPRequester)
    (ht : c.config.HTTPClient = some t) :
    ∃ r : Request, (Call lib c req v rh).sent = [r]
      ∧ (req.Header "Api-Key" = [] → c.config.APIKey ≠ "" →
          r.Header "Api-Key" = [c.config.APIKey])
      ∧ (req.Header.Get "Api-Key" ≠ "" → r.Header "Api-Key" = req.Header "Api-Key")
      ∧ (req.Header.Get "Api-Key" = "" → c.config.APIKey ≠ "" →
          r.Header "Api-Key" = req.Header "Api-Key" ++ [c.config.APIKey])
      ∧ (c.config.APIKey = "" → r.Header "Api-Key" = req.Header "Api-Key") := by
  refine ⟨_, Call_sent lib c req v rh t ht, ?_, ?_, ?_, ?_⟩
  · intro h0 hk
    have hg : req.Header.Get "Api-Key" = "" := by simp [Header.Get, h0]
    show callHeaders c req.Header "Api-Key" = _
    rw [callHeaders_Api_Key, if_pos ⟨hk, hg⟩, h0]
    rfl
  · intro hg
    show callHeaders c req.Header "Api-Key" = _
    rw [callHeaders_Api_Key, if_neg (fun h => hg h.2)]
  · intro hg hk
    show callHeaders c req.Header "Api-Key" = _
    rw [callHeaders_Api_Key, if_pos ⟨hk, hg⟩]
  · intro hk
    show callHeaders c req.Header "Api-Key" = _
    rw [callHeaders_Api_Key, if_neg (fun h => h.1 hk)]

/-- C2 (amended) at a concrete input: no `Api-Key` on the request, key `secret`. -/
theorem Call_Api_Key_witness :
    ∃ r : Request,
      (Call sampleLib (sampleClient "secret" offline offline) (sampleRequest (fun _ => []))
        () none).sent = [r] ∧ r.Header "Api-Key" = ["secret"] := by
  obtain ⟨r, hs, h1, _⟩ := Call_Api_Key sampleLib (sampleClient "secret" offline offline)
    (sampleRequest (fun _ => [])) () none offline rfl
  exact ⟨r, hs, h1 rfl (by decide)⟩

/-- C9, as stated, fails: the caller put `Api-Version: 2` on the request and the
configured version is `1`; the dispatched request's `Api-Version` header holds both
values and reads as the caller's `2`, not as the configured version. -/
theorem Call_Api_Version_preset :
    (Call sampleLib (sampleClient "secret" offline offline)
        (sampleRequest (headerWith "Api-Version" ["2"])) () none).sent.map
        (fun r => r.Header "Api-Version") = [["2", "1"]]
      ∧ ¬ ((Call sampleLib (sampleClient "secret" offline offline)
              (sampleRequest (headerWith "Api-Version" ["2"])) () none).sent.map
            (fun r => r.Header.Get "Api-Version") = ["1"]) := by
  decide

/-- C9, amended: `Call` hands exactly one request to the active transport, and on it
the configured `APIVersion` is the last value of `Api-Version` and `application/json`
the last value of `Accept`, after the values the caller put there; when the caller put
none, the two headers read as the configured version and `application/json`.
`application/json` is added as `Content-Type` exactly when the caller's request has no
`Content-Type` value or its first value is empty; a `Content-Type` whose first value
is non-empty is left unchanged. -/
theorem Call_fixed_headers {σ : Type} (lib : Lib) (c : Client) (req : Request) (v : σ)
    (rh : Option (responseHandler σ)) (t : HTTPRequester)
    (ht : c.config.HTTPClient = some t) :
    ∃ r : Request, (Call lib c req v rh).sent = [r]
      ∧ r.Header "Api-Version" = req.Header "Api-Version" ++ [c.config.APIVersion]
      ∧ r.Header "Accept" = req.Header "Accept" ++ ["application/json"]
      ∧ (req.Header "Api-Version" = [] → r.Header.Get "Api-Version" = c.config.APIVersion)
      ∧ (req.Header "Accept" = [] → r.Header.Get "Accept" = "application/json")
      ∧ (req.Header.Get "Content-Type" = "" →
          r.Header "Content-Type" = req.Header "Content-Type" ++ ["application/json"])
      ∧ (req.Header "Content-Type" = [] → r.Header "Content-Type" = ["application/json"])
      ∧ (req.Header.Get "Content-Type" ≠ "" →
          r.Header "Content-Type" = req.Header "Content-Type") := by
  refine ⟨_, Call_sent lib c req v rh t ht, callHeaders_Api_Version c req.Header,
    callHeaders_Accept c req.Header, ?_, ?_, ?_, ?_, ?_⟩
  · intro h0
    show (callHeaders c req.Header).Get "Api-Version" = _
    simp [Header.Get, callHeaders_Api_Version, h0]
  · intro h0
    show (callHeaders c req.Header).Get "Accept" = _
    simp [Header.Get, callHeaders_Accept, h0]
  · intro hg
    show callHeaders c req.Header "Content-Type" = _
    rw [callHeaders_Content_Type, if_pos hg]
  · intro h0
    have hg : req.Header.Get "Content-Type" = "" := by simp [Header.Get, h0]
    show callHeaders c req.Header "Content-Type" = _
    rw [callHeaders_Content_Type, if_pos hg, h0]
    rfl
  · intro hg
    show callHeaders c req.Header "Content-Type" = _
    rw [callHeaders_Content_Type, if_neg hg]

/-- C9 (amended) at a concrete input: the caller set only `Content-Type: image/png`. -/
theorem Call_fixed_headers_witness :
    ∃ r : Request,
      (Call sampleLib (sampleClient "secret" offline offline)
        (sampleRequest (headerWith "Content-Type" ["image/png"])) () none).sent = [r]
        ∧ r.Header.Get "Api-Version" = "1"
        ∧ r.Header.Get "Accept" = "application/json"
        ∧ r.Header "Content-Type" = ["image/png"] := by
  obtain ⟨r, hs, _, _, h3, h4, _, _, h7⟩ := Call_fixed_headers sampleLib
    (sampleClient "secret" offline offline)
    (sampleRequest (headerWith "Content-Type" ["image/png"])) () none offline rfl
  exact ⟨r, hs, h3 rfl, h4 rfl, h7 (by decide)⟩

/-! ## Decoding: `handleUnmarshalError`, `handleStatusCodeError`, `jsonResponseHandler` -/

/-- C4: for a type-mismatch error whose offset `o` lies within the body
(`0 ≤ o ≤ len(body)`), both slice expressions stay within bounds, the first yields the
up to 100 bytes before `o` and the second the up to 100 bytes from `o` on, and
`handleUnmarshalError` returns an `AnnotatedUnmarshalTypeError` that wraps the same
error and whose `Content` is the first window, the separator, the second window. -/
theorem handleUnmarshalError_window (body : List Byte) (e : UnmarshalTypeError)
    (h0 : 0 ≤ e.Offset) (h1 : e.Offset ≤ (body.length : Int)) :
    slice body (max (e.Offset - 100) 0) e.Offset
        = .ret ((body.take e.Offset.toNat).drop (e.Offset.toNat - 100))
      ∧ slice body e.Offset (min (e.Offset + 100) (body.length : Int))
        = .ret ((body.drop e.Offset.toNat).take 100)
      ∧ handleUnmarshalError (.unmarshalType e) body
        = .ret (.annotatedUnmarshalType
            { UnmarshalTypeError := e
              Content := (body.take e.Offset.toNat).drop (e.Offset.toNat - 100)
                ++ separator ++ (body.drop e.Offset.toNat).take 100 })
      ∧ ((body.take e.Offset.toNat).drop (e.Offset.toNat - 100)).length
        = min 100 e.Offset.toNat
      ∧ ((body.drop e.Offset.toNat).take 100).length
        = min 100 (body.length - e.Offset.toNat) := by
  obtain ⟨n, hn⟩ := Int.eq_ofNat_of_zero_le h0
  have hle : n ≤ body.length := by omega
  have hb := slice_before body n hle
  have ha := slice_after body n hle
  have hmax : max (e.Offset - 100) 0 = (if (n : Int) - 100 < 0 then 0 else (n : Int) - 100) := by
    rw [hn]
    split_ifs <;> omega
  have hmin : min (e.Offset + 100) (body.length : Int)
      = (if (n : Int) + 100 > (body.length : Int) then (body.length : Int) else (n : Int) + 100) := by
    rw [hn]
    split_ifs <;> omega
  have htn : e.Offset.toNat = n := by omega
  refine ⟨?_, ?_, ?_, ?_, ?_⟩
  · rw [hmax, htn, hn]
    exact hb
  · rw [hmin, htn, hn]
    exact ha
  · unfold handleUnmarshalError
    simp only [hn, htn]
    rw [hb, ha]
    simp
  · rw [htn, List.length_drop, List.length_take]
    omega
  · rw [htn, List.length_take, List.length_drop]

/-- C4 at a concrete input: a body of six bytes and offset 2. -/
theorem handleUnmarshalError_window_witness :
    handleUnmarshalError (.unmarshalType ⟨"string", "int", 2, "T", "f"⟩) [1, 2, 3, 4, 5, 6]
      = .ret (.annotatedUnmarshalType
          { UnmarshalTypeError := ⟨"string", "int", 2, "T", "f"⟩
            Content := [1, 2, 10, 60, 45, 45, 62, 10, 3, 4, 5, 6] }) :=
  (handleUnmarshalError_window [1, 2, 3, 4, 5, 6] ⟨"string", "int", 2, "T", "f"⟩
    (by decide) (by decide)).2.2.1

/-- C7: for every response, of any status, whose body is read, `handleStatusCodeError`
returns a `StatusCodeError` with the response's status code and the bytes read as `Body`; its
`APIError` is present exactly when the body is non-empty and decodes as an `APIError`,
and is then the decoded value; when the body does not decode the `APIError` is absent
and the body is still attached; when the body is empty only the status code is set. -/
theorem handleStatusCodeError_body (lib : Lib) (resp : Response) (body : List Byte)
    (hb : resp.Body = .ok body) :
    ∃ e : StatusCodeError, handleStatusCodeError lib resp = .statusCode e
      ∧ e.Code = resp.StatusCode
      ∧ e.Body = body
      ∧ (e.APIError.isSome ↔ body ≠ [] ∧ ∃ a, lib.unmarshalAPIError body = .ok a)
      ∧ (∀ a, body ≠ [] → lib.unmarshalAPIError body = .ok a → e.APIError = some a)
      ∧ (∀ err, lib.unmarshalAPIError body = .error err →
          e = { Code := resp.StatusCode, APIError := none, Body := body })
      ∧ (body = [] → e = { Code := resp.StatusCode, APIError := none, Body := [] }) := by
  unfold handleStatusCodeError
  simp only [hb]
  by_cases hl : body.length = 0
  · have hnil : body = [] := List.length_eq_zero.mp hl
    refine ⟨{ Code := resp.StatusCode, APIError := none, Body := body },
      by simp only [hl, if_true], rfl, rfl, ?_, ?_, ?_, ?_⟩
    · simp [hnil]
    · intro a hne
      exact absurd hnil hne
    · intro err _
      rfl
    · intro h
      rw [h]
  · have hne : body ≠ [] := fun h => hl (by rw [h]; rfl)
    cases hu : lib.unmarshalAPIError body with
    | error e1 =>
      refine ⟨{ Code := resp.StatusCode, APIError := none, Body := body },
        by simp only [hl, if_false], rfl, rfl, ?_, ?_, ?_, ?_⟩
      · simp
      · intro a _ h
        cases h
      · intro err _
        rfl
      · intro h
        exact absurd h hne
    | ok a =>
      refine ⟨{ Code := resp.StatusCode, APIError := some a, Body := body },
        by simp only [hl, if_false], rfl, rfl, ?_, ?_, ?_, ?_⟩
      · simp [hne]
      · intro a1 _ h
        cases h
        rfl
      · intro err h
        cases h
      · intro h
        exact absurd h hne

/-- C7 at a concrete input: status 404 and a body of two bytes that does not decode. -/
theorem handleStatusCodeError_body_witness :
    ∃ e : StatusCodeError,
      handleStatusCodeError sampleLib ⟨404, .ok [110, 111]⟩ = .statusCode e
        ∧ e.Code = 404 ∧ e.Body = [110, 111] ∧ e.APIError = none := by
  obtain ⟨e, h1, h2, h3, _, _, h6, _⟩ :=
    handleStatusCodeError_body sampleLib ⟨404, .ok [110, 111]⟩ [110, 111] rfl
  have he := h6 (.foreign "invalid character") rfl
  exact ⟨e, h1, h2, h3, by rw [he]⟩

/-- C8: for a response with a status below 400 whose body reads as zero bytes, and for
every decode target, `jsonResponseHandler` returns no error and the target as it was,
without decoding; and `CallJSONResponse`, when the active transport answers with such
a response, invokes the handler once and returns no error with the target as it was. -/
theorem jsonResponseHandler_empty_body {σ : Type} (dec : Decoder σ) (resp : Response)
    (v : σ) (hs : resp.StatusCode < 400) (hb : resp.Body = .ok []) :
    jsonResponseHandler dec resp v = .ret (v, none)
      ∧ ∀ (lib : Lib) (c : Client) (req : Request) (t : HTTPRequester),
          c.config.HTTPClient = some t →
          t.Do { req with Header := callHeaders c req.Header } = .ok resp →
          (CallJSONResponse lib dec c req v).outcome = .ret (v, none)
            ∧ (CallJSONResponse lib dec c req v).handlerCalls = 1 := by
  have hj : jsonResponseHandler dec resp v = .ret (v, none) := by
    unfold jsonResponseHandler
    simp only [hb]
    rfl
  refine ⟨hj, ?_⟩
  intro lib c req t ht hdo
  unfold CallJSONResponse
  rw [Call_of_status_lt_400 lib c req v _ t resp ht hdo hs]
  exact ⟨hj, rfl⟩

/-- C8 at a concrete input: status 200, an empty body, and a decoder that would
overwrite the target and fail if it were run. -/
theorem jsonResponseHandler_empty_body_witness :
    jsonResponseHandler (fun _ (_ : Nat) => (0, some (.foreign "decoded"))) ⟨200, .ok []⟩ 7
        = .ret (7, none)
      ∧ (CallJSONResponse sampleLib (fun _ (_ : Nat) => (0, some (.foreign "decoded")))
          (sampleClient "secret" (answering ⟨200, .ok []⟩) offline)
          (sampleRequest (fun _ => [])) 7).outcome = .ret (7, none) :=
  have h := jsonResponseHandler_empty_body
    (fun _ (_ : Nat) => (0, some (.foreign "decoded"))) ⟨200, .ok []⟩ 7 (by decide) rfl
  ⟨h.1, (h.2 sampleLib (sampleClient "secret" (answering ⟨200, .ok []⟩) offline)
    (sampleRequest (fun _ => [])) (answering ⟨200, .ok []⟩) rfl rfl).1⟩

/-! ## `Client.NewRequest` -/

theorem NewRequest_no_query (lib : Lib) (c : Client) (method path : String)
    (body : Option (List Byte)) :
    NewRequest lib c method path body []
      = .ret (lib.httpNewRequest method (c.config.APIAddress ++ path) body) := by
  unfold NewRequest
  cases lib.httpNewRequest method (c.config.APIAddress ++ path) body <;> simp

theorem NewRequest_ok (lib : Lib) (c : Client) (method path : String)
    (body : Option (List Byte)) (query : Values) (req : Request)
    (hr : lib.httpNewRequest method (c.config.APIAddress ++ path) body = .ok req) :
    NewRequest lib c method path body query
      = .ret (.ok (if query.length > 0 then { req with RawQuery := lib.valuesEncode query }
                   else req)) := by
  unfold NewRequest
  simp only [hr]
  split_ifs <;> rfl

/-- C6, where the code departs from it: when `http.NewRequest` rejects the URL and the
query mapping is non-empty, `NewRequest` does not return the construction error; it
panics, dereferencing the nil request to set the query string. -/
theorem NewRequest_invalid_url_with_query_panics (lib : Lib) (c : Client)
    (method path : String) (body : Option (List Byte)) (query : Values) (err : Error)
    (hr : lib.httpNewRequest method (c.config.APIAddress ++ path) body = .error err)
    (hq : query ≠ []) :
    NewRequest lib c method path body query = .panic := by
  have hl : query.length > 0 := List.length_pos.mpr hq
  unfold NewRequest
  simp only [hr]
  simp [hl]

/-- C6 at the failing input: the address `:` has no scheme, and one query parameter
is given. -/
theorem NewRequest_invalid_url_with_query_panics_witness :
    NewRequest sampleLib
      { config := { (sampleClient "secret" offline offline).config with APIAddress := ":" } }
      "GET" "/sourceimages/test" none [("limit", ["10"])] = .panic :=
  NewRequest_invalid_url_with_query_panics sampleLib _ "GET" "/sourceimages/test" none
    [("limit", ["10"])] (.foreign "missing protocol scheme") rfl (by decide)

/-! ## `Client.ValidAPIKey` -/

theorem ValidAPIKey_no_key (lib : Lib) (dec : Decoder Unit) (c : Client)
    (hk : c.config.APIKey = "") :
    ValidAPIKey lib dec c = { sent := [], outcome := .ret (false, some .errorAPIKeyMissing) } := by
  have hl : c.config.APIKey.length = 0 := (length_eq_zero_iff _).mpr hk
  unfold ValidAPIKey
  simp only [hl, if_true]

theorem ValidAPIKey_no_request (lib : Lib) (dec : Decoder Unit) (c : Client) (err : Error)
    (hk : c.config.APIKey ≠ "")
    (hr : lib.httpNewRequest "GET" (c.config.APIAddress ++ "/") none = .error err) :
    ValidAPIKey lib dec c = { sent := [], outcome := .ret (false, some err) } := by
  have hl : ¬ c.config.APIKey.length = 0 := fun h => hk ((length_eq_zero_iff _).mp h)
  unfold ValidAPIKey
  simp only [hl, if_false, NewRequest_no_query, hr]

theorem ValidAPIKey_sent (lib : Lib) (dec : Decoder Unit) (c : Client) (req : Request)
    (hk : c.config.APIKey ≠ "")
    (hr : lib.httpNewRequest "GET" (c.config.APIAddress ++ "/") none = .ok req) :
    (ValidAPIKey lib dec c).sent = (CallJSONResponse lib dec c req ()).sent := by
  have hl : ¬ c.config.APIKey.length = 0 := fun h => hk ((length_eq_zero_iff _).mp h)
  unfold ValidAPIKey
  simp only [hl, if_false, NewRequest_no_query, hr]
  split <;> try rfl
  split <;> rfl

theorem ValidAPIKey_of_panic (lib : Lib) (dec : Decoder Unit) (c : Client) (req : Request)
    (hk : c.config.APIKey ≠ "")
    (hr : lib.httpNewRequest "GET" (c.config.APIAddress ++ "/") none = .ok req)
    (hc : (CallJSONResponse lib dec c req ()).outcome = .panic) :
    (ValidAPIKey lib dec c).outcome = .panic := by
  have hl : ¬ c.config.APIKey.length = 0 := fun h => hk ((length_eq_zero_iff _).mp h)
  unfold ValidAPIKey
  simp only [hl, if_false, NewRequest_no_query, hr, hc]

theorem ValidAPIKey_of_no_error (lib : Lib) (dec : Decoder Unit) (c : Client) (req : Request)
    (hk : c.config.APIKey ≠ "")
    (hr : lib.httpNewRequest "GET" (c.config.APIAddress ++ "/") none = .ok req)
    (hc : (CallJSONResponse lib dec c req ()).outcome = .ret ((), none)) :
    (ValidAPIKey lib dec c).outcome = .ret (true, none) := by
  have hl : ¬ c.config.APIKey.length = 0 := fun h => hk ((length_eq_zero_iff _).mp h)
  unfold ValidAPIKey
  simp only [hl, if_false, NewRequest_no_query, hr, hc]

theorem ValidAPIKey_of_forbidden (lib : Lib) (dec : Decoder Unit) (c : Client)
    (req : Request) (e : StatusCodeError)
    (hk : c.config.APIKey ≠ "")
    (hr : lib.httpNewRequest "GET" (c.config.APIAddress ++ "/") none = .ok req)
    (hc : (CallJSONResponse lib dec c req ()).outcome = .ret ((), some (.statusCode e)))
    (he : e.Code = 403) :
    (ValidAPIKey lib dec c).outcome = .ret (false, none) := by
  have hl : ¬ c.config.APIKey.length = 0 := fun h => hk ((length_eq_zero_iff _).mp h)
  unfold ValidAPIKey
  simp only [hl, if_false, NewRequest_no_query, hr, hc, he, if_true]

theorem ValidAPIKey_of_error (lib : Lib) (dec : Decoder Unit) (c : Client)
    (req : Request) (err : Error)
    (hk : c.config.APIKey ≠ "")
    (hr : lib.httpNewRequest "GET" (c.config.APIAddress ++ "/") none = .ok req)
    (hc : (CallJSONResponse lib dec c req ()).outcome = .ret ((), some err))
    (he : ∀ e, err = .statusCode e → e.Code ≠ 403) :
    (ValidAPIKey lib dec c).outcome = .ret (false, some err) := by
  have hl : ¬ c.config.APIKey.length = 0 := fun h => hk ((length_eq_zero_iff _).mp h)
  unfold ValidAPIKey
  simp only [hl, if_false, NewRequest_no_query, hr, hc]
  cases err with
  | statusCode e => simp only [he e rfl, if_false]
  | errorAPIKeyMissing => rfl
  | annotatedUnmarshalType e => rfl
  | unmarshalType e => rfl
  | foreign msg => rfl

theorem ValidAPIKey_of_any_error (lib : Lib) (dec : Decoder Unit) (c : Client)
    (req : Request) (err : Error)
    (hk : c.config.APIKey ≠ "")
    (hr : lib.httpNewRequest "GET" (c.config.APIAddress ++ "/") none = .ok req)
    (hc : (CallJSONResponse lib dec c req ()).outcome = .ret ((), some err)) :
    ∃ e1, (ValidAPIKey lib dec c).outcome = .ret (false, e1) := by
  by_cases he : ∀ e, err = .statusCode e → e.Code ≠ 403
  · exact ⟨_, ValidAPIKey_of_error lib dec c req err hk hr hc he⟩
  · push_neg at he
    obtain ⟨e, hse, h403⟩ := he
    subst hse
    exact ⟨_, ValidAPIKey_of_forbidden lib dec c req e hk hr hc h403⟩

/-- C3, where the code departs from it: the key is set and the transport answers the
GET `/` request with status 403, but reading the body fails; `ValidAPIKey` returns
`false` together with the read error, not `(false, nil)`. -/
theorem ValidAPIKey_forbidden_unread_body (lib : Lib) (dec : Decoder Unit) (c : Client)
    (req : Request) (t : HTTPRequester) (resp : Response) (err : Error)
    (hk : c.config.APIKey ≠ "")
    (hr : lib.httpNewRequest "GET" (c.config.APIAddress ++ "/") none = .ok req)
    (ht : c.config.HTTPClient = some t)
    (hdo : t.Do { req with Header := callHeaders c req.Header } = .ok resp)
    (h403 : resp.StatusCode = 403)
    (hb : resp.Body = .error err)
    (he : ∀ e, err = .statusCode e → e.Code ≠ 403) :
    (ValidAPIKey lib dec c).outcome = .ret (false, some err) := by
  have hs : resp.StatusCode ≥ 400 := by omega
  apply ValidAPIKey_of_error lib dec c req err hk hr _ he
  unfold CallJSONResponse
  rw [Call_of_status_ge_400 lib c req () _ t resp ht hdo hs,
    handleStatusCodeError_of_read_error lib resp err hb]

/-- C3 at the failing input: key `secret`, the transport answers with status 403 and
reading the body fails with an unexpected end of file; `ValidAPIKey` returns `false`
with that read error, and so not `(false, nil)`. -/
theorem ValidAPIKey_forbidden_unread_body_witness :
    (ValidAPIKey sampleLib sampleDecoder
        (sampleClient "secret" (answering ⟨403, .error (.foreign "unexpected EOF")⟩)
          offline)).outcome = .ret (false, some (.foreign "unexpected EOF"))
      ∧ ¬ ((ValidAPIKey sampleLib sampleDecoder
          (sampleClient "secret" (answering ⟨403, .error (.foreign "unexpected EOF")⟩)
            offline)).outcome = .ret (false, none)) := by
  have h := ValidAPIKey_forbidden_unread_body sampleLib sampleDecoder
    (sampleClient "secret" (answering ⟨403, .error (.foreign "unexpected EOF")⟩) offline)
    { Method := "GET", URL := "https://api.rokka.io/", RawQuery := "", Header := fun _ => [],
      Body := none }
    (answering ⟨403, .error (.foreign "unexpected EOF")⟩)
    ⟨403, .error (.foreign "unexpected EOF")⟩ (.foreign "unexpected EOF")
    (by decide) rfl rfl rfl rfl rfl (by intro e he; cases he)
  refine ⟨h, ?_⟩
  intro hn
  rw [h] at hn
  cases hn

/-- What `ValidAPIKey` returns, case by case:
* `(false, errorAPIKeyMissing)` with no request handed to the transport when the
  configured key is empty;
* `(false, nil)` when the key is non-empty, the transport answers the GET `/` request
  with status 403 and the body is read (in general, whenever the call's error is a
  `StatusCodeError` with code 403);
* `(false, that error)` for a request construction error (with no request handed to
  the transport) and, unless the error is itself a `StatusCodeError` with code 403,
  for a transport error, a body read error and a decode error; for another status of
  400 or more with a body that is read, the error is the `StatusCodeError` with that
  status;
* `(true, nil)` when the status is below 400 and decoding reports no error, and only
  then. -/
theorem ValidAPIKey_cases (lib : Lib) (dec : Decoder Unit) (c : Client) :
    (c.config.APIKey = "" →
        (ValidAPIKey lib dec c).sent = []
          ∧ (ValidAPIKey lib dec c).outcome = .ret (false, some .errorAPIKeyMissing))
      ∧ (c.config.APIKey ≠ "" →
          ∀ err, lib.httpNewRequest "GET" (c.config.APIAddress ++ "/") none = .error err →
            (ValidAPIKey lib dec c).sent = []
              ∧ (ValidAPIKey lib dec c).outcome = .ret (false, some err))
      ∧ (c.config.APIKey ≠ "" →
          ∀ req t, lib.httpNewRequest "GET" (c.config.APIAddress ++ "/") none = .ok req →
            c.config.HTTPClient = some t →
            (ValidAPIKey lib dec c).sent = [{ req with Header := callHeaders c req.Header }]
              ∧ (∀ e, (CallJSONResponse lib dec c req ()).outcome
                    = .ret ((), some (.statusCode e)) → e.Code = 403 →
                  (ValidAPIKey lib dec c).outcome = .ret (false, none))
              ∧ (∀ err, t.Do { req with Header := callHeaders c req.Header } = .error err →
                  (∀ e, err = .statusCode e → e.Code ≠ 403) →
                  (ValidAPIKey lib dec c).outcome = .ret (false, some err))
              ∧ (∀ resp, t.Do { req with Header := callHeaders c req.Header } = .ok resp →
                  (resp.StatusCode = 403 → ∀ body, resp.Body = .ok body →
                    (ValidAPIKey lib dec c).outcome = .ret (false, none))
                  ∧ (resp.StatusCode ≥ 400 → resp.StatusCode ≠ 403 →
                      ∀ body, resp.Body = .ok body →
                      ∃ e : StatusCodeError, e.Code = resp.StatusCode
                        ∧ (ValidAPIKey lib dec c).outcome
                          = .ret (false, some (.statusCode e)))
                  ∧ (resp.StatusCode ≥ 400 → ∀ err, resp.Body = .error err →
                      (∀ e, err = .statusCode e → e.Code ≠ 403) →
                      (ValidAPIKey lib dec c).outcome = .ret (false, some err))
                  ∧ (resp.StatusCode < 400 →
                      ∀ err, jsonResponseHandler dec resp () = .ret ((), some err) →
                      (∀ e, err = .statusCode e → e.Code ≠ 403) →
                      (ValidAPIKey lib dec c).outcome = .ret (false, some err))
                  ∧ (resp.StatusCode < 400 →
                      jsonResponseHandler dec resp () = .ret ((), none) →
                      (ValidAPIKey lib dec c).outcome = .ret (true, none))))
      ∧ (∀ e, (ValidAPIKey lib dec c).outcome = .ret (true, e) →
          e = none ∧ c.config.APIKey ≠ ""
            ∧ ∃ req t resp,
              lib.httpNewRequest "GET" (c.config.APIAddress ++ "/") none = .ok req
                ∧ c.config.HTTPClient = some t
                ∧ t.Do { req with Header := callHeaders c req.Header } = .ok resp
                ∧ resp.StatusCode < 400
                ∧ jsonResponseHandler dec resp () = .ret ((), none)) := by
  refine ⟨?_, ?_, ?_, ?_⟩
  · intro hk
    rw [ValidAPIKey_no_key lib dec c hk]
    exact ⟨rfl, rfl⟩
  · intro hk err hr
    rw [ValidAPIKey_no_request lib dec c err hk hr]
    exact ⟨rfl, rfl⟩
  · intro hk req t hr ht
    refine ⟨?_, ?_, ?_, ?_⟩
    · rw [ValidAPIKey_sent lib dec c req hk hr]
      exact Call_sent lib c req () _ t ht
    · intro e hc he
      exact ValidAPIKey_of_forbidden lib dec c req e hk hr hc he
    · intro err hdo he
      apply ValidAPIKey_of_error lib dec c req err hk hr _ he
      unfold CallJSONResponse
      rw [Call_of_transport_error lib c req () _ t err ht hdo]
    · intro resp hdo
      refine ⟨?_, ?_, ?_, ?_, ?_⟩
      · intro h403 body hb
        have hs : resp.StatusCode ≥ 400 := by omega
        obtain ⟨a, ha⟩ := handleStatusCodeError_of_read lib resp body hb
        apply ValidAPIKey_of_forbidden lib dec c req
          { Code := resp.StatusCode, APIError := a, Body := body } hk hr _ h403
        unfold CallJSONResponse
        rw [Call_of_status_ge_400 lib c req () _ t resp ht hdo hs, ha]
      · intro hs hne body hb
        obtain ⟨a, ha⟩ := handleStatusCodeError_of_read lib resp body hb
        refine ⟨{ Code := resp.StatusCode, APIError := a, Body := body }, rfl, ?_⟩
        apply ValidAPIKey_of_error lib dec c req _ hk hr
        · unfold CallJSONResponse
          rw [Call_of_status_ge_400 lib c req () _ t resp ht hdo hs, ha]
        · intro e he
          cases he
          exact hne
      · intro hs err hb he
        apply ValidAPIKey_of_error lib dec c req err hk hr _ he
        unfold CallJSONResponse
        rw [Call_of_status_ge_400 lib c req () _ t resp ht hdo hs,
          handleStatusCodeError_of_read_error lib resp err hb]
      · intro hs err hj he
        apply ValidAPIKey_of_error lib dec c req err hk hr _ he
        unfold CallJSONResponse
        rw [Call_of_status_lt_400 lib c req () _ t resp ht hdo hs, hj]
      · intro hs hj
        apply ValidAPIKey_of_no_error lib dec c req hk hr
        unfold CallJSONResponse
        rw [Call_of_status_lt_400 lib c req () _ t resp ht hdo hs, hj]
  · intro e hv
    by_cases hk : c.config.APIKey = ""
    · rw [ValidAPIKey_no_key lib dec c hk] at hv
      cases hv
    cases hr : lib.httpNewRequest "GET" (c.config.APIAddress ++ "/") none with
    | error err =>
      rw [ValidAPIKey_no_request lib dec c err hk hr] at hv
      cases hv
    | ok req =>
      have hfalse : ∀ err, (CallJSONResponse lib dec c req ()).outcome
          = .ret ((), some err) → False := by
        intro err hc
        obtain ⟨e1, h1⟩ := ValidAPIKey_of_any_error lib dec c req err hk hr hc
        rw [h1] at hv
        cases hv
      cases ht : c.config.HTTPClient with
      | none =>
        have hc : (CallJSONResponse lib dec c req ()).outcome = .panic := by
          unfold CallJSONResponse Call
          simp only [ht]
        rw [ValidAPIKey_of_panic lib dec c req hk hr hc] at hv
        cases hv
      | some t =>
        cases hdo : t.Do { req with Header := callHeaders c req.Header } with
        | error err =>
          exact (hfalse err (by
            unfold CallJSONResponse
            rw [Call_of_transport_error lib c req () _ t err ht hdo])).elim
        | ok resp =>
          by_cases hs : resp.StatusCode ≥ 400
          · exact (hfalse _ (by
              unfold CallJSONResponse
              rw [Call_of_status_ge_400 lib c req () _ t resp ht hdo hs])).elim
          · have hlt : resp.StatusCode < 400 := by omega
            have hc : (CallJSONResponse lib dec c req ()).outcome
                = jsonResponseHandler dec resp () := by
              unfold CallJSONResponse
              rw [Call_of_status_lt_400 lib c req () _ t resp ht hdo hlt]
            cases hj : jsonResponseHandler dec resp () with
            | panic =>
              rw [hj] at hc
              rw [ValidAPIKey_of_panic lib dec c req hk hr hc] at hv
              cases hv
            | ret a =>
              obtain ⟨u, oe⟩ := a
              cases oe with
              | some err => exact (hfalse err (by rw [hc, hj])).elim
              | none =>
                rw [hj] at hc
                rw [ValidAPIKey_of_no_error lib dec c req hk hr hc] at hv
                cases hv
                exact ⟨rfl, hk, req, t, resp, rfl, rfl, hdo, hlt, hj⟩

/-- `ValidAPIKey` at concrete inputs: no key; key and a 403 answer whose body is read;
key and a 200 answer. -/
theorem ValidAPIKey_cases_witness :
    (ValidAPIKey sampleLib sampleDecoder (sampleClient "" offline offline)).outcome
        = .ret (false, some .errorAPIKeyMissing)
      ∧ (ValidAPIKey sampleLib sampleDecoder
          (sampleClient "secret" (answering ⟨403, .ok []⟩) offline)).outcome
        = .ret (false, none)
      ∧ (ValidAPIKey sampleLib sampleDecoder
          (sampleClient "secret" (answering ⟨200, .ok []⟩) offline)).outcome
        = .ret (true, none) :=
  ⟨((ValidAPIKey_cases sampleLib sampleDecoder (sampleClient "" offline offline)).1 rfl).2,
    ((((ValidAPIKey_cases sampleLib sampleDecoder
      (sampleClient "secret" (answering ⟨403, .ok []⟩) offline)).2.2.1 (by decide)
      _ (answering ⟨403, .ok []⟩) rfl rfl).2.2.2 ⟨403, .ok []⟩ rfl).1 rfl [] rfl),
    ((((ValidAPIKey_cases sampleLib sampleDecoder
      (sampleClient "secret" (answering ⟨200, .ok []⟩) offline)).2.2.1 (by decide)
      _ (answering ⟨200, .ok []⟩) rfl rfl).2.2.2 ⟨200, .ok []⟩ rfl).2.2.2.2 (by decide) rfl)⟩

end Rokka
